import Mathlib

/-!
Shallow embedding of the EROFS layer conversion pipeline of
`pkg/converter/converter.go` (package `converter` of
erofs-container-toolkit), together with theorems settling the frozen
claims about it.

External collaborators (the containerd content store, the generic
decompression transform `uncompress.LayerConvertFunc`, the layer-type
classifiers and the `mkfs.erofs` subprocess) are modelled as an oracle
`World` fixing the outcome of each effectful call; the control flow,
flag assembly, label bookkeeping and descriptor rewriting are
translated statement by statement from the Go source.  Besides its
return value, the embedded `convertLayer` produces a trace of the
effectful operations it performed, in order, so that claims about
"no store I/O" and about operation ordering can be stated.
-/

namespace ErofsConv

/-- Go errors, as far as the converter distinguishes them:
`errdefs.ErrNotImplemented`, an error satisfying
`errdefs.IsAlreadyExists`, the internal-consistency error built at
converter.go:104, the `mkfs.erofs ... failed` error built at
converter.go:58, and arbitrary opaque errors from collaborators. -/
inductive GoErr where
  | notImplemented
  | alreadyExists
  | sameBlob (dgst mediaType : String)
  | mkfsFailed (args : List String) (output : String)
  | msg (s : String)
  deriving DecidableEq, Repr

/-- `errdefs.IsAlreadyExists` (converter.go:173). -/
def isAlreadyExists : GoErr → Bool
  | .alreadyExists => true
  | _ => false

/-- OCI image-spec descriptor (`ocispec.Descriptor`): the fields the Go
struct carries; `digest` is the string form of the content digest. -/
structure Descriptor where
  mediaType : String
  digest : String
  size : Int
  urls : List String
  annots : List (String × String)
  data : Option (List Nat)
  platform : Option String
  artifactType : String
  deriving DecidableEq, Repr

/-- Label sets (`map[string]string`), as association lists. -/
abbrev Labels := List (String × String)

/-- Go map lookup `m[k]`. -/
def mapGet (m : Labels) (k : String) : Option String :=
  (m.find? (fun p => p.1 == k)).map (fun p => p.2)

/-- Go map assignment `m[k] = v`: overwrite if present, append otherwise. -/
def mapSet (m : Labels) (k v : String) : Labels :=
  if m.any (fun p => p.1 == k) then
    m.map (fun p => if p.1 == k then (k, v) else p)
  else m ++ [(k, v)]

/-- `labels.LabelUncompressed` from containerd. -/
def labelUncompressed : String := "containerd.io/uncompressed"

/-- The `options` struct of converter.go:22. -/
structure ConvOptions where
  uuid : String
  compressors : String
  extraMkfsOpts : String
  deriving DecidableEq, Repr

/-- Zero value of `options` (`var opts options`, converter.go:80). -/
def initOptions : ConvOptions := ⟨"", "", ""⟩

/-- The functional `Option` type of converter.go:28 (`func(o *options) error`),
as a state-passing function. -/
def ConvOpt := ConvOptions → Except GoErr ConvOptions

/-- `WithCompressors` (converter.go:30). -/
def WithCompressors (compressors : String) : ConvOpt :=
  fun o => .ok { o with compressors := compressors }

/-- `WithUUID` (converter.go:37). -/
def WithUUID (uuid : String) : ConvOpt :=
  fun o => .ok { o with uuid := uuid }

/-- `WithExtraMkfsOption` (converter.go:44). -/
def WithExtraMkfsOption (extraMkfsOpts : String) : ConvOpt :=
  fun o => .ok { o with extraMkfsOpts := extraMkfsOpts }

/-- The option-application loop of converter.go:82-86: apply each
option in order, returning the first error. -/
def applyOpts : List ConvOpt → ConvOptions → Except GoErr ConvOptions
  | [], o => .ok o
  | f :: fs, o =>
    match f o with
    | .error e => .error e
    | .ok o2 => applyOpts fs o2

/-- Extra-flag assembly of converter.go:129-142, verbatim: the volume
branch, then the compressor branch, then the opaque extra options. -/
def buildExtraOpts (o : ConvOptions) : List String :=
  (if o.uuid != "" then [o.uuid]
   else ["-U", "fead9a88-fd26-578a-a655-9cbddcb89e76"]) ++
  (if o.compressors != "" then ["-z", o.compressors] ++ ["-C", "65536"] else []) ++
  (if o.extraMkfsOpts != "" then [o.extraMkfsOpts] else [])

/-- Argument list handed to `exec.CommandContext(ctx, "mkfs.erofs", args...)`
by `convertTarErofs` (converter.go:52-53): the fixed base flags, then the
extra options, then the destination path last. -/
def mkfsErofsArgs (mkfsExtraOpts : List String) (layerPath : String) : List String :=
  ["--tar=f", "--aufs", "--quiet"] ++ mkfsExtraOpts ++ [layerPath]

/-- Outcome model of `convertTarErofs` (converter.go:51-62): `mkfsOut`
is `some out` when the subprocess exits non-zero with combined output
`out`, in which case the wrapped error carries `cmd.Args` (argv0
included) and the output. -/
def convertTarErofs (mkfsOut : Option String) (mkfsExtraOpts : List String)
    (layerPath : String) : Option GoErr :=
  match mkfsOut with
  | some out => some (.mkfsFailed ("mkfs.erofs" :: mkfsErofsArgs mkfsExtraOpts layerPath) out)
  | none => none

/-- Effectful operations `convertLayer` performs, traced in order.
`infoRead`, `readerAtOpen`, `writerOpen`, `truncate`, `copyWrite` and
`commit` are content-store operations; `uncompressCall` is the
decompression transform (itself store I/O); `mkfsInvoke` records the
argument list passed to the external builder. -/
inductive Event where
  | uncompressCall (dgst : String)
  | infoRead (dgst : String)
  | readerAtOpen (dgst : String)
  | mkfsInvoke (args : List String)
  | writerOpen (ref : String)
  | truncate (off : Int)
  | copyWrite (n : Int)
  | commit (size : Int) (ref : String) (labelSet : Labels)
  deriving DecidableEq, Repr

/-- Result of one run of `convertLayer`: the returned descriptor pointer
(`none` = nil), the returned error (`none` = nil), and the trace of
effectful operations performed. -/
structure RunResult where
  desc : Option Descriptor
  err : Option GoErr
  trace : List Event
  deriving DecidableEq, Repr

/-- Oracle for every external effect one run of `convertLayer` can
perform: availability probe, classifiers, the decompression transform's
result, the store's labels and the outcome of each store / file /
subprocess call.  An `Option GoErr` field is `none` when the call
succeeds. -/
structure World where
  hasMkfs : Bool
  isLayer : String → Bool
  isUncompressed : String → Bool
  uncompressRes : Except GoErr (Option Descriptor)
  storeLabels : String → Option Labels
  infoErr : Option GoErr
  readerAtErr : Option GoErr
  tempPath : String
  tempFileErr : Option GoErr
  mkfsOut : Option String
  openWriterErr : Option GoErr
  truncateErr : Option GoErr
  copyN : Int
  copyErr : Option GoErr
  blobCloseErr : Option GoErr
  writerDigest : String
  commitErr : Option GoErr
  writerCloseErr : Option GoErr

/-- Labels visible to the code after `info, err := cs.Info(ctx, desc.Digest)`
(converter.go:109): on error `info` is the zero value, whose `Labels`
map is nil; note the source never checks this `err`. -/
def infoLabels (w : World) (dgst : String) : Option Labels :=
  match w.infoErr with
  | some _ => none
  | none => w.storeLabels dgst

/-- converter.go:176-184: the explicit `w.Close()` check and the final
descriptor construction (`newDesc := desc` with media type, digest and
size overwritten). -/
def closeAndFinish (w : World) (desc : Descriptor) (n : Int) (ev : List Event) : RunResult :=
  match w.writerCloseErr with
  | some e => ⟨none, some e, ev⟩
  | none =>
    ⟨some { desc with
             mediaType := "application/vnd.erofs"
             digest := w.writerDigest
             size := n },
     none, ev⟩

/-- converter.go:159-184, from the `w.Truncate(0)` call on: truncate,
copy of the staging file into the writer, staging-file close, commit of
`copyN` bytes under the updated label set (an already-exists commit
error is treated as success, converter.go:173), writer close and
descriptor rewrite.  `ev4` is the trace up to and including the writer
open. -/
def writeCommitClose (w : World) (desc : Descriptor) (labelz : Labels)
    (ev4 : List Event) : RunResult :=
  let ev5 := ev4 ++ [Event.truncate 0]
  match w.truncateErr with
  | some e => ⟨none, some e, ev5⟩
  | none =>
  let ev6 := ev5 ++ [Event.copyWrite w.copyN]
  match w.copyErr with
  | some e => ⟨none, some e, ev6⟩
  | none =>
  match w.blobCloseErr with
  | some e => ⟨none, some e, ev6⟩
  | none =>
  let labelz2 := mapSet labelz labelUncompressed w.writerDigest
  let ev7 := ev6 ++ [Event.commit w.copyN "" labelz2]
  match w.commitErr with
  | some e =>
    if isAlreadyExists e then closeAndFinish w desc w.copyN ev7
    else ⟨none, some e, ev7⟩
  | none => closeAndFinish w desc w.copyN ev7

/-- converter.go:109-184, after the decompression stage: label read
(error discarded by the source), bounded reader, temp-file staging,
extra-flag assembly, builder invocation, writer open under the
reference derived from the original digest, then `writeCommitClose`.
`desc` is the original descriptor, `uncompressedDesc` the one the
decompression stage produced, `ev0` the events already performed. -/
def convertRest (w : World) (opts : ConvOptions) (desc uncompressedDesc : Descriptor)
    (ev0 : List Event) : RunResult :=
  let labelz : Labels := (infoLabels w desc.digest).getD []
  let ev1 := ev0 ++ [Event.infoRead desc.digest]
  let ev2 := ev1 ++ [Event.readerAtOpen uncompressedDesc.digest]
  match w.readerAtErr with
  | some e => ⟨none, some e, ev2⟩
  | none =>
  match w.tempFileErr with
  | some e => ⟨none, some e, ev2⟩
  | none =>
  let extraopts := buildExtraOpts opts
  let ev3 := ev2 ++ [Event.mkfsInvoke (mkfsErofsArgs extraopts w.tempPath)]
  match convertTarErofs w.mkfsOut extraopts w.tempPath with
  | some e => ⟨none, some e, ev3⟩
  | none =>
  let ref := "convert-erofs-from-" ++ desc.digest
  let ev4 := ev3 ++ [Event.writerOpen ref]
  match w.openWriterErr with
  | some e => ⟨none, some e, ev4⟩
  | none => writeCommitClose w desc labelz ev4

/-- The closure returned by `LayerConvertFunc` (converter.go:78-186):
apply the functional options, gate on builder availability, pass
through non-layer media types, run the decompression stage, then the
rest of the pipeline. -/
def convertLayer (w : World) (optList : List ConvOpt) (desc : Descriptor) : RunResult :=
  match applyOpts optList initOptions with
  | .error e => ⟨none, some e, []⟩
  | .ok opts =>
    if w.hasMkfs = false then ⟨none, some GoErr.notImplemented, []⟩
    else if w.isLayer desc.mediaType = false then ⟨none, none, []⟩
    else if w.isUncompressed desc.mediaType = false then
      match w.uncompressRes with
      | .error e => ⟨none, some e, [Event.uncompressCall desc.digest]⟩
      | .ok none =>
        ⟨none, some (GoErr.sameBlob desc.digest desc.mediaType),
         [Event.uncompressCall desc.digest]⟩
      | .ok (some d) => convertRest w opts desc d [Event.uncompressCall desc.digest]
    else convertRest w opts desc desc []

/-- The decompression transform returned a non-nil descriptor. -/
def uncompressNonNil (w : World) : Bool :=
  match w.uncompressRes with
  | .ok (some _) => true
  | _ => false

/-- The decompression stage produced a descriptor: either the input was
already uncompressed, or the transform returned a non-nil result. -/
def decompressOk (w : World) (desc : Descriptor) : Bool :=
  w.isUncompressed desc.mediaType || uncompressNonNil w

/-- The run reaches the builder invocation (converter.go:144). -/
def reachesMkfs (w : World) (desc : Descriptor) : Bool :=
  w.hasMkfs && w.isLayer desc.mediaType && decompressOk w desc &&
    w.readerAtErr.isNone && w.tempFileErr.isNone

/-- The run reaches the content-store writer open (converter.go:150). -/
def reachesWriterOpen (w : World) (desc : Descriptor) : Bool :=
  reachesMkfs w desc && w.mkfsOut.isNone

/-- The run reaches the commit (converter.go:173). -/
def reachesCommit (w : World) (desc : Descriptor) : Bool :=
  reachesWriterOpen w desc && w.openWriterErr.isNone && w.truncateErr.isNone &&
    w.copyErr.isNone && w.blobCloseErr.isNone

/-- No byte is copied into the writer before it has been truncated to
offset zero: scanning the trace, a `copyWrite` before any `truncate`
refutes the property, and the first `truncate` must be to offset 0. -/
def truncateBeforeCopy : List Event → Bool
  | [] => true
  | Event.truncate off :: _ => off == 0
  | Event.copyWrite _ :: _ => false
  | _ :: rest => truncateBeforeCopy rest

/-- Events that neither write bytes into the writer nor truncate it. -/
def neutralEv : Event → Bool
  | Event.truncate _ => false
  | Event.copyWrite _ => false
  | _ => true

/-- A compressed OCI layer descriptor used as concrete input. -/
def sampleDesc : Descriptor where
  mediaType := "application/vnd.oci.image.layer.v1.tar+gzip"
  digest := "sha256:orig"
  size := 100
  urls := []
  annots := [("a", "b")]
  data := none
  platform := none
  artifactType := ""

/-- The descriptor the decompression transform produces for `sampleDesc`. -/
def uncompDesc : Descriptor :=
  { sampleDesc with
      mediaType := "application/vnd.oci.image.layer.v1.tar"
      digest := "sha256:plain" }

/-- A world in which every external call succeeds: the builder is
installed, everything is a layer type, plain tar counts as
uncompressed, the transform yields `uncompDesc`, the store holds one
label for every digest, the copy writes 42 bytes and the writer digest
is `sha256:new`. -/
def okWorld : World where
  hasMkfs := true
  isLayer := fun _ => true
  isUncompressed := fun s => s == "application/vnd.oci.image.layer.v1.tar"
  uncompressRes := .ok (some uncompDesc)
  storeLabels := fun _ => some [("k", "v")]
  infoErr := none
  readerAtErr := none
  tempPath := "/tmp/erofs-layer-123"
  tempFileErr := none
  mkfsOut := none
  openWriterErr := none
  truncateErr := none
  copyN := 42
  copyErr := none
  blobCloseErr := none
  writerDigest := "sha256:new"
  commitErr := none
  writerCloseErr := none

/-- `okWorld` with the builder probe reporting absence. -/
def noMkfsWorld : World := { okWorld with hasMkfs := false }

/-- `okWorld` with the builder absent and nothing classified as a layer. -/
def c5World : World := { okWorld with hasMkfs := false, isLayer := fun _ => false }

/-- `okWorld` where everything succeeds but nothing is a layer type. -/
def c5OkNonLayerWorld : World := { okWorld with isLayer := fun _ => false }

/-- `okWorld` where the decompression transform returns nil. -/
def c7World : World := { okWorld with uncompressRes := .ok none }

/-- `okWorld` where the commit reports "already exists" and the
subsequent writer close fails. -/
def c1World : World :=
  { okWorld with
      commitErr := some GoErr.alreadyExists
      writerCloseErr := some (GoErr.msg "close failed") }

/-- `okWorld` where the metadata read (`cs.Info`) fails while the store
does hold a label for the original digest. -/
def c6World : World := { okWorld with infoErr := some (GoErr.msg "info failed") }

/-- `okWorld` where the metadata read fails with a distinct error. -/
def c9World : World := { okWorld with infoErr := some (GoErr.msg "boom") }

/-- `okWorld` where the commit succeeds but the writer close fails. -/
def c10World : World := { okWorld with writerCloseErr := some (GoErr.msg "late close") }

/- ### Helper lemmas -/

theorem uncompressNonNil_spec (w : World) (h : uncompressNonNil w = true) :
    ∃ d, w.uncompressRes = .ok (some d) := by
  unfold uncompressNonNil at h
  rcases hu : w.uncompressRes with e | (_ | d)
  · rw [hu] at h; simp at h
  · rw [hu] at h; simp at h
  · exact ⟨d, rfl⟩

theorem reachesCommit_spec (w : World) (desc : Descriptor)
    (h : reachesCommit w desc = true) :
    w.hasMkfs = true ∧ w.isLayer desc.mediaType = true ∧ decompressOk w desc = true ∧
    w.readerAtErr = none ∧ w.tempFileErr = none ∧ w.mkfsOut = none ∧
    w.openWriterErr = none ∧ w.truncateErr = none ∧ w.copyErr = none ∧
    w.blobCloseErr = none := by
  simp only [reachesCommit, reachesWriterOpen, reachesMkfs, Bool.and_eq_true,
    Option.isNone_iff_eq_none] at h
  tauto

theorem reachesWriterOpen_spec (w : World) (desc : Descriptor)
    (h : reachesWriterOpen w desc = true) :
    w.hasMkfs = true ∧ w.isLayer desc.mediaType = true ∧ decompressOk w desc = true ∧
    w.readerAtErr = none ∧ w.tempFileErr = none ∧ w.mkfsOut = none := by
  simp only [reachesWriterOpen, reachesMkfs, Bool.and_eq_true,
    Option.isNone_iff_eq_none] at h
  tauto

theorem convertLayer_eq_convertRest (w : World) (optList : List ConvOpt)
    (desc : Descriptor) (opts : ConvOptions)
    (h1 : applyOpts optList initOptions = .ok opts)
    (hm : w.hasMkfs = true) (hl : w.isLayer desc.mediaType = true)
    (hd : decompressOk w desc = true) :
    ∃ d ev0, convertLayer w optList desc = convertRest w opts desc d ev0 ∧
      (ev0 = [] ∨ ev0 = [Event.uncompressCall desc.digest]) := by
  cases hU : w.isUncompressed desc.mediaType
  · rw [decompressOk, hU] at hd
    simp only [Bool.false_or] at hd
    obtain ⟨d, hu⟩ := uncompressNonNil_spec w hd
    exact ⟨d, [Event.uncompressCall desc.digest],
      by simp [convertLayer, h1, hm, hl, hU, hu], Or.inr rfl⟩
  · exact ⟨desc, [], by simp [convertLayer, h1, hm, hl, hU], Or.inl rfl⟩

theorem convertRest_success (w : World) (opts : ConvOptions) (desc d : Descriptor)
    (ev0 : List Event)
    (hra : w.readerAtErr = none) (htf : w.tempFileErr = none) (hmk : w.mkfsOut = none)
    (how : w.openWriterErr = none) (htr : w.truncateErr = none)
    (hcp : w.copyErr = none) (hbc : w.blobCloseErr = none)
    (hc : w.commitErr = none ∨ w.commitErr = some GoErr.alreadyExists)
    (hw : w.writerCloseErr = none) :
    convertRest w opts desc d ev0 =
      ⟨some { desc with
               mediaType := "application/vnd.erofs"
               digest := w.writerDigest
               size := w.copyN },
       none,
       ev0 ++ [Event.infoRead desc.digest, Event.readerAtOpen d.digest,
               Event.mkfsInvoke (mkfsErofsArgs (buildExtraOpts opts) w.tempPath),
               Event.writerOpen ("convert-erofs-from-" ++ desc.digest),
               Event.truncate 0, Event.copyWrite w.copyN,
               Event.commit w.copyN ""
                 (mapSet ((infoLabels w desc.digest).getD []) labelUncompressed
                   w.writerDigest)]⟩ := by
  rcases hc with hc | hc <;>
    simp [convertRest, writeCommitClose, closeAndFinish, convertTarErofs,
      hra, htf, hmk, how, htr, hcp, hbc, hc, hw, isAlreadyExists]

theorem convertRest_close_fail (w : World) (opts : ConvOptions) (desc d : Descriptor)
    (ev0 : List Event) (e : GoErr)
    (hra : w.readerAtErr = none) (htf : w.tempFileErr = none) (hmk : w.mkfsOut = none)
    (how : w.openWriterErr = none) (htr : w.truncateErr = none)
    (hcp : w.copyErr = none) (hbc : w.blobCloseErr = none)
    (hc : w.commitErr = none ∨ w.commitErr = some GoErr.alreadyExists)
    (hw : w.writerCloseErr = some e) :
    convertRest w opts desc d ev0 =
      ⟨none, some e,
       ev0 ++ [Event.infoRead desc.digest, Event.readerAtOpen d.digest,
               Event.mkfsInvoke (mkfsErofsArgs (buildExtraOpts opts) w.tempPath),
               Event.writerOpen ("convert-erofs-from-" ++ desc.digest),
               Event.truncate 0, Event.copyWrite w.copyN,
               Event.commit w.copyN ""
                 (mapSet ((infoLabels w desc.digest).getD []) labelUncompressed
                   w.writerDigest)]⟩ := by
  rcases hc with hc | hc <;>
    simp [convertRest, writeCommitClose, closeAndFinish, convertTarErofs,
      hra, htf, hmk, how, htr, hcp, hbc, hc, hw, isAlreadyExists]

theorem convertRest_truncate_fail (w : World) (opts : ConvOptions) (desc d : Descriptor)
    (ev0 : List Event) (e : GoErr)
    (hra : w.readerAtErr = none) (htf : w.tempFileErr = none) (hmk : w.mkfsOut = none)
    (how : w.openWriterErr = none) (htr : w.truncateErr = some e) :
    (convertRest w opts desc d ev0).desc = none ∧
      (convertRest w opts desc d ev0).err = some e := by
  simp [convertRest, writeCommitClose, convertTarErofs, hra, htf, hmk, how, htr]

theorem writeCommitClose_trace (w : World) (desc : Descriptor) (labelz : Labels)
    (ev4 : List Event) :
    ∃ t2, (writeCommitClose w desc labelz ev4).trace = ev4 ++ Event.truncate 0 :: t2 := by
  unfold writeCommitClose closeAndFinish
  rcases w.truncateErr with _ | e1 <;>
  rcases w.copyErr with _ | e2 <;>
  rcases w.blobCloseErr with _ | e3 <;>
  rcases w.commitErr with _ | e4 <;>
  rcases w.writerCloseErr with _ | e5 <;>
  simp [isAlreadyExists] <;>
  first
  | exact ⟨[], by simp⟩
  | exact ⟨[Event.copyWrite w.copyN], by simp⟩
  | exact ⟨[Event.copyWrite w.copyN,
            Event.commit w.copyN "" (mapSet labelz labelUncompressed w.writerDigest)],
      by simp⟩
  | (rcases e4 <;>
     simp [isAlreadyExists] <;>
     try exact ⟨[Event.copyWrite w.copyN,
                 Event.commit w.copyN "" (mapSet labelz labelUncompressed w.writerDigest)],
        by simp⟩)

theorem truncateBeforeCopy_append (ev rest : List Event)
    (h : ∀ e ∈ ev, neutralEv e = true) :
    truncateBeforeCopy (ev ++ rest) = truncateBeforeCopy rest := by
  induction ev with
  | nil => rfl
  | cons e es ih =>
    have he : neutralEv e = true := h e (List.mem_cons_self e es)
    have hr : ∀ x ∈ es, neutralEv x = true := fun x hx => h x (List.mem_cons_of_mem _ hx)
    cases e with
    | truncate off => simp [neutralEv] at he
    | copyWrite n => simp [neutralEv] at he
    | uncompressCall d => simpa [truncateBeforeCopy] using ih hr
    | infoRead d => simpa [truncateBeforeCopy] using ih hr
    | readerAtOpen d => simpa [truncateBeforeCopy] using ih hr
    | mkfsInvoke a => simpa [truncateBeforeCopy] using ih hr
    | writerOpen r => simpa [truncateBeforeCopy] using ih hr
    | commit n r ls => simpa [truncateBeforeCopy] using ih hr

theorem convertRest_trace_shape (w : World) (opts : ConvOptions) (desc d : Descriptor)
    (ev0 : List Event)
    (hra : w.readerAtErr = none) (htf : w.tempFileErr = none) (hmk : w.mkfsOut = none) :
    ∃ tail, (convertRest w opts desc d ev0).trace =
      ev0 ++ Event.infoRead desc.digest :: Event.readerAtOpen d.digest ::
        Event.mkfsInvoke (mkfsErofsArgs (buildExtraOpts opts) w.tempPath) ::
        Event.writerOpen ("convert-erofs-from-" ++ desc.digest) :: tail ∧
      (tail = [] ∨ ∃ t2, tail = Event.truncate 0 :: t2) := by
  rcases how : w.openWriterErr with _ | e
  · have hred : convertRest w opts desc d ev0 =
        writeCommitClose w desc ((infoLabels w desc.digest).getD [])
          ((((ev0 ++ [Event.infoRead desc.digest]) ++ [Event.readerAtOpen d.digest]) ++
            [Event.mkfsInvoke (mkfsErofsArgs (buildExtraOpts opts) w.tempPath)]) ++
            [Event.writerOpen ("convert-erofs-from-" ++ desc.digest)]) := by
      simp only [convertRest, convertTarErofs, hra, htf, hmk, how]
    obtain ⟨t2, ht⟩ := writeCommitClose_trace w desc ((infoLabels w desc.digest).getD [])
      ((((ev0 ++ [Event.infoRead desc.digest]) ++ [Event.readerAtOpen d.digest]) ++
        [Event.mkfsInvoke (mkfsErofsArgs (buildExtraOpts opts) w.tempPath)]) ++
        [Event.writerOpen ("convert-erofs-from-" ++ desc.digest)])
    refine ⟨Event.truncate 0 :: t2, ?_, Or.inr ⟨t2, rfl⟩⟩
    rw [hred, ht]
    simp
  · refine ⟨[], ?_, Or.inl rfl⟩
    simp [convertRest, convertTarErofs, hra, htf, hmk, how]

/- ### Claim theorems -/

/-- C1, counterexample to the claim as stated: in `c1World` the
conversion reaches the commit step and the commit fails with the
"already exists" error, yet `convertLayer` returns no descriptor,
because the subsequent writer close fails (converter.go:176-178). -/
theorem c1_already_exists_counterexample :
    reachesCommit c1World sampleDesc = true ∧
    c1World.commitErr = some GoErr.alreadyExists ∧
    isAlreadyExists GoErr.alreadyExists = true ∧
    (convertLayer c1World [] sampleDesc).desc = none ∧
    (convertLayer c1World [] sampleDesc).err = some (GoErr.msg "close failed") := by
  decide

/-- C1 (amended): for every conversion that reaches the commit step, a
commit outcome of success or of an "already exists" failure is treated
as success, and provided the subsequent writer close succeeds,
`convertLayer` returns a new descriptor equal to the original in every
field except media type (set to `application/vnd.erofs`), digest (set
to the writer's computed digest) and size (set to the byte count copied
from the staging file), with a nil error. -/
theorem c1_descriptor_rewrite (w : World) (optList : List ConvOpt) (desc : Descriptor)
    (opts : ConvOptions) (h1 : applyOpts optList initOptions = .ok opts)
    (h2 : reachesCommit w desc = true)
    (h3 : w.commitErr = none ∨ w.commitErr = some GoErr.alreadyExists)
    (h4 : w.writerCloseErr = none) :
    (convertLayer w optList desc).desc =
      some { desc with
              mediaType := "application/vnd.erofs"
              digest := w.writerDigest
              size := w.copyN } ∧
    (convertLayer w optList desc).err = none := by
  obtain ⟨hm, hl, hd, hra, htf, hmk, how, htr, hcp, hbc⟩ := reachesCommit_spec w desc h2
  obtain ⟨d, ev0, heq, hev⟩ := convertLayer_eq_convertRest w optList desc opts h1 hm hl hd
  rw [heq, convertRest_success w opts desc d ev0 hra htf hmk how htr hcp hbc h3 h4]
  exact ⟨rfl, rfl⟩

/-- C1 witness: in `okWorld` (commit succeeds, close succeeds) the
hypotheses of the amended claim hold and the returned descriptor is the
rewritten one. -/
theorem c1_descriptor_rewrite_witness :
    (applyOpts [] initOptions = .ok initOptions ∧
     reachesCommit okWorld sampleDesc = true ∧
     (okWorld.commitErr = none ∨ okWorld.commitErr = some GoErr.alreadyExists) ∧
     okWorld.writerCloseErr = none) ∧
    (convertLayer okWorld [] sampleDesc).desc =
      some { sampleDesc with
              mediaType := "application/vnd.erofs"
              digest := okWorld.writerDigest
              size := okWorld.copyN } ∧
    (convertLayer okWorld [] sampleDesc).err = none :=
  ⟨⟨rfl, by decide, Or.inl rfl, rfl⟩,
   c1_descriptor_rewrite okWorld [] sampleDesc initOptions rfl (by decide)
     (Or.inl rfl) rfl⟩

/-- C2: for options {volume id unset, compressors `deflate,9`, extra
mkfs options `-Efoo`} the assembled extra-argument sequence is exactly
`-U fead9a88-fd26-578a-a655-9cbddcb89e76 -z deflate,9 -C 65536 -Efoo`
in that order, and the builder argument list is the fixed base flags
(`--tar=f --aufs --quiet`), then those extra arguments, then the
destination path as the final positional argument. -/
theorem c2_flag_ordering :
    applyOpts [WithCompressors "deflate,9", WithExtraMkfsOption "-Efoo"] initOptions =
      .ok ⟨"", "deflate,9", "-Efoo"⟩ ∧
    buildExtraOpts ⟨"", "deflate,9", "-Efoo"⟩ =
      ["-U", "fead9a88-fd26-578a-a655-9cbddcb89e76", "-z", "deflate,9", "-C", "65536",
       "-Efoo"] ∧
    ∀ layerPath : String,
      mkfsErofsArgs (buildExtraOpts ⟨"", "deflate,9", "-Efoo"⟩) layerPath =
        ["--tar=f", "--aufs", "--quiet",
         "-U", "fead9a88-fd26-578a-a655-9cbddcb89e76", "-z", "deflate,9", "-C", "65536",
         "-Efoo", layerPath] := by
  refine ⟨rfl, rfl, fun layerPath => ?_⟩
  simp [mkfsErofsArgs, buildExtraOpts]

/-- C3, evaluation at the failing input: with a non-empty volume
identifier the assembled extra flags are just the bare identifier as a
single argument, with no `-U` flag (converter.go:132), whereas the
empty case does produce the `-U` flag pair. -/
theorem c3_uuid_flag_eval :
    buildExtraOpts ⟨"abc", "", ""⟩ = ["abc"] ∧
    buildExtraOpts initOptions = ["-U", "fead9a88-fd26-578a-a655-9cbddcb89e76"] ∧
    applyOpts [WithUUID "abc"] initOptions = .ok ⟨"abc", "", ""⟩ :=
  ⟨rfl, rfl, rfl⟩

/-- C4: when the builder availability probe reported false,
`convertLayer` returns the "not implemented" error for every input
descriptor with an empty effect trace, i.e. before any content-store
operation. -/
theorem c4_capability_gate (w : World) (optList : List ConvOpt) (desc : Descriptor)
    (opts : ConvOptions) (h1 : applyOpts optList initOptions = .ok opts)
    (h2 : w.hasMkfs = false) :
    convertLayer w optList desc = ⟨none, some GoErr.notImplemented, []⟩ := by
  simp [convertLayer, h1, h2]

/-- C4 witness at `noMkfsWorld` and `sampleDesc`. -/
theorem c4_capability_gate_witness :
    (applyOpts [] initOptions = .ok initOptions ∧ noMkfsWorld.hasMkfs = false) ∧
    convertLayer noMkfsWorld [] sampleDesc = ⟨none, some GoErr.notImplemented, []⟩ :=
  ⟨⟨rfl, rfl⟩, c4_capability_gate noMkfsWorld [] sampleDesc initOptions rfl rfl⟩

/-- C5, counterexample to the claim as stated: in `c5World` the
descriptor's media type is not a layer type, yet `convertLayer` does
not return `(nil, nil)`: the builder is unavailable and the capability
gate (converter.go:88) fires first, returning the "not implemented"
error. -/
theorem c5_counterexample :
    c5World.isLayer sampleDesc.mediaType = false ∧
    convertLayer c5World [] sampleDesc = ⟨none, some GoErr.notImplemented, []⟩ :=
  ⟨rfl, rfl⟩

/-- C5 (amended): when the external builder is available, for any
descriptor whose media type is not a layer type `convertLayer` returns
`(nil, nil)` with an empty effect trace — no store writes at all. -/
theorem c5_pass_through (w : World) (optList : List ConvOpt) (desc : Descriptor)
    (opts : ConvOptions) (h1 : applyOpts optList initOptions = .ok opts)
    (h2 : w.hasMkfs = true) (h3 : w.isLayer desc.mediaType = false) :
    convertLayer w optList desc = ⟨none, none, []⟩ := by
  simp [convertLayer, h1, h2, h3]

/-- C5 witness at `c5OkNonLayerWorld` and `sampleDesc`. -/
theorem c5_pass_through_witness :
    (applyOpts [] initOptions = .ok initOptions ∧
     c5OkNonLayerWorld.hasMkfs = true ∧
     c5OkNonLayerWorld.isLayer sampleDesc.mediaType = false) ∧
    convertLayer c5OkNonLayerWorld [] sampleDesc = ⟨none, none, []⟩ :=
  ⟨⟨rfl, rfl, rfl⟩,
   c5_pass_through c5OkNonLayerWorld [] sampleDesc initOptions rfl rfl rfl⟩

/-- C6, evaluation at the failing input: in `c6World` the store holds
the label `("k", "v")` for the original digest but the metadata read
fails; the source discards that error (converter.go:109), the
conversion succeeds, and the label set passed to the commit is only the
overwritten uncompressed-digest label — the stored label is dropped. -/
theorem c6_label_drop_eval :
    c6World.storeLabels sampleDesc.digest = some [("k", "v")] ∧
    c6World.infoErr = some (GoErr.msg "info failed") ∧
    (convertLayer c6World [] sampleDesc).err = none ∧
    (convertLayer c6World [] sampleDesc).desc ≠ none ∧
    Event.commit 42 "" [(labelUncompressed, "sha256:new")] ∈
      (convertLayer c6World [] sampleDesc).trace ∧
    mapGet [(labelUncompressed, "sha256:new")] "k" = none := by
  decide

/-- C7: for a layer-type descriptor with a compressed media type, if
the decompression transform returns nil, `convertLayer` fails with the
internal-consistency "unexpectedly got the same blob after compression"
error, performing no further store operation. -/
theorem c7_same_digest_error (w : World) (optList : List ConvOpt) (desc : Descriptor)
    (opts : ConvOptions) (h1 : applyOpts optList initOptions = .ok opts)
    (h2 : w.hasMkfs = true) (h3 : w.isLayer desc.mediaType = true)
    (h4 : w.isUncompressed desc.mediaType = false)
    (h5 : w.uncompressRes = .ok none) :
    convertLayer w optList desc =
      ⟨none, some (GoErr.sameBlob desc.digest desc.mediaType),
       [Event.uncompressCall desc.digest]⟩ := by
  simp [convertLayer, h1, h2, h3, h4, h5]

/-- C7 witness at `c7World` and `sampleDesc`. -/
theorem c7_same_digest_error_witness :
    (applyOpts [] initOptions = .ok initOptions ∧
     c7World.hasMkfs = true ∧
     c7World.isLayer sampleDesc.mediaType = true ∧
     c7World.isUncompressed sampleDesc.mediaType = false ∧
     c7World.uncompressRes = .ok none) ∧
    convertLayer c7World [] sampleDesc =
      ⟨none, some (GoErr.sameBlob sampleDesc.digest sampleDesc.mediaType),
       [Event.uncompressCall sampleDesc.digest]⟩ :=
  ⟨⟨rfl, rfl, rfl, by decide, rfl⟩,
   c7_same_digest_error c7World [] sampleDesc initOptions rfl rfl rfl (by decide) rfl⟩

/-- C8: every conversion that reaches the content-store write opens the
writer under the reference `convert-erofs-from-<original digest>`
(derived from the original descriptor, whatever the decompression stage
produced), no byte is copied into the writer before a truncate to
offset zero, and a truncate failure aborts the conversion with that
error. -/
theorem c8_writer_ref_truncate (w : World) (optList : List ConvOpt) (desc : Descriptor)
    (opts : ConvOptions) (h1 : applyOpts optList initOptions = .ok opts)
    (h2 : reachesWriterOpen w desc = true) :
    Event.writerOpen ("convert-erofs-from-" ++ desc.digest) ∈
        (convertLayer w optList desc).trace ∧
    truncateBeforeCopy (convertLayer w optList desc).trace = true ∧
    ∀ e, w.openWriterErr = none → w.truncateErr = some e →
      (convertLayer w optList desc).desc = none ∧
      (convertLayer w optList desc).err = some e := by
  obtain ⟨hm, hl, hd, hra, htf, hmk⟩ := reachesWriterOpen_spec w desc h2
  obtain ⟨d, ev0, heq, hev⟩ := convertLayer_eq_convertRest w optList desc opts h1 hm hl hd
  obtain ⟨tail, htrace, htail⟩ := convertRest_trace_shape w opts desc d ev0 hra htf hmk
  rw [heq]
  refine ⟨?_, ?_, ?_⟩
  · rw [htrace]; simp
  · rw [htrace]
    have hform : ev0 ++ Event.infoRead desc.digest :: Event.readerAtOpen d.digest ::
        Event.mkfsInvoke (mkfsErofsArgs (buildExtraOpts opts) w.tempPath) ::
        Event.writerOpen ("convert-erofs-from-" ++ desc.digest) :: tail =
        (ev0 ++ [Event.infoRead desc.digest, Event.readerAtOpen d.digest,
          Event.mkfsInvoke (mkfsErofsArgs (buildExtraOpts opts) w.tempPath),
          Event.writerOpen ("convert-erofs-from-" ++ desc.digest)]) ++ tail := by
      simp
    rw [hform, truncateBeforeCopy_append]
    · rcases htail with h | ⟨t2, h⟩ <;> subst h <;> rfl
    · intro ev hmem
      rcases List.mem_append.mp hmem with hm1 | hm2
      · rcases hev with h0 | h0 <;> subst h0
        · simp at hm1
        · simp only [List.mem_singleton] at hm1
          subst hm1; rfl
      · simp only [List.mem_cons, List.not_mem_nil, or_false] at hm2
        rcases hm2 with h | h | h | h <;> subst h <;> rfl
  · intro e how htrerr
    exact convertRest_truncate_fail w opts desc d ev0 e hra htf hmk how htrerr

/-- C8 witness at `okWorld` and `sampleDesc` (a compressed input, so
the decompressed digest differs from the original, yet the reference is
derived from the original digest). -/
theorem c8_writer_ref_truncate_witness :
    (applyOpts [] initOptions = .ok initOptions ∧
     reachesWriterOpen okWorld sampleDesc = true) ∧
    Event.writerOpen ("convert-erofs-from-" ++ sampleDesc.digest) ∈
      (convertLayer okWorld [] sampleDesc).trace ∧
    truncateBeforeCopy (convertLayer okWorld [] sampleDesc).trace = true :=
  ⟨⟨rfl, by decide⟩,
   (c8_writer_ref_truncate okWorld [] sampleDesc initOptions rfl (by decide)).1,
   (c8_writer_ref_truncate okWorld [] sampleDesc initOptions rfl (by decide)).2.1⟩

/-- C9, evaluation at the failing input: in `c9World` the metadata read
(`cs.Info`) fails, but the error is discarded (converter.go:109 binds
it and never checks it before it is overwritten at converter.go:115),
so the conversion completes successfully instead of propagating the
error. -/
theorem c9_info_error_ignored_eval :
    c9World.infoErr = some (GoErr.msg "boom") ∧
    (convertLayer c9World [] sampleDesc).err = none ∧
    (convertLayer c9World [] sampleDesc).desc =
      some { sampleDesc with
              mediaType := "application/vnd.erofs"
              digest := "sha256:new"
              size := 42 } := by
  decide

/-- C10: if closing the content writer after the commit step fails,
`convertLayer` returns a nil descriptor and the close error even though
the commit succeeded (or was treated as success via "already exists");
the commit of the new blob remains in the performed-operation trace. -/
theorem c10_close_error_after_commit (w : World) (optList : List ConvOpt)
    (desc : Descriptor) (opts : ConvOptions) (e : GoErr)
    (h1 : applyOpts optList initOptions = .ok opts)
    (h2 : reachesCommit w desc = true)
    (h3 : w.commitErr = none ∨ w.commitErr = some GoErr.alreadyExists)
    (h4 : w.writerCloseErr = some e) :
    (convertLayer w optList desc).desc = none ∧
    (convertLayer w optList desc).err = some e ∧
    ∃ ls, Event.commit w.copyN "" ls ∈ (convertLayer w optList desc).trace := by
  obtain ⟨hm, hl, hd, hra, htf, hmk, how, htr, hcp, hbc⟩ := reachesCommit_spec w desc h2
  obtain ⟨d, ev0, heq, hev⟩ := convertLayer_eq_convertRest w optList desc opts h1 hm hl hd
  rw [heq, convertRest_close_fail w opts desc d ev0 e hra htf hmk how htr hcp hbc h3 h4]
  exact ⟨rfl, rfl,
    ⟨mapSet ((infoLabels w desc.digest).getD []) labelUncompressed w.writerDigest,
     by simp⟩⟩

/-- C10 witness at `c10World` and `sampleDesc`. -/
theorem c10_close_error_after_commit_witness :
    (applyOpts [] initOptions = .ok initOptions ∧
     reachesCommit c10World sampleDesc = true ∧
     (c10World.commitErr = none ∨ c10World.commitErr = some GoErr.alreadyExists) ∧
     c10World.writerCloseErr = some (GoErr.msg "late close")) ∧
    (convertLayer c10World [] sampleDesc).desc = none ∧
    (convertLayer c10World [] sampleDesc).err = some (GoErr.msg "late close") ∧
    ∃ ls, Event.commit c10World.copyN "" ls ∈
      (convertLayer c10World [] sampleDesc).trace :=
  ⟨⟨rfl, by decide, Or.inl rfl, rfl⟩,
   c10_close_error_after_commit c10World [] sampleDesc initOptions
     (GoErr.msg "late close") rfl (by decide) (Or.inl rfl) rfl⟩

end ErofsConv
